import Mathlib

/-!
# Verification of the jackal C2S core against its specification

Shallow embedding of the jackal XMPP server's client-to-server core:
the per-connection stream state machine (`c2s/in.go`), the offline
message module (`module/offline/offline.go`), the vCard module
(`module/xep0054`), and the private XML storage module (`module/xep0049`).

Pure data (JIDs, XML elements) is translated directly; stateful stream
code becomes explicit state passing over an `InStream` record; calls to
external collaborators (router, storage, authenticators) become function
parameters or are recorded as explicit actions in the result, so that
every embedded operation stays executable.
-/

set_option maxRecDepth 4096

/-! ## Data model: JIDs and XML elements -/

/-- A Jabber identifier: `(node, domain, resource)` triple, mirroring
`xmpp/jid`.  An empty component stands for an absent one. -/
structure JID where
  node : String
  domain : String
  resource : String
deriving DecidableEq

/-- Mirrors `JID.ToBareJID`: drop the resource part. -/
def JID.toBareJID (j : JID) : JID :=
  { j with resource := "" }

/-- Mirrors `JID.IsFullWithUser`: has both a node and a resource. -/
def JID.isFullWithUser (j : JID) : Bool :=
  j.node != "" && j.resource != ""

/-- Mirrors `JID.IsServer`: no node and no resource. -/
def JID.isServer (j : JID) : Bool :=
  j.node == "" && j.resource == ""

/-- Mirrors `JID.String`: `node@domain/resource` with absent parts omitted. -/
def JID.toStr (j : JID) : String :=
  (if j.node == "" then "" else j.node ++ "@") ++ j.domain ++
    (if j.resource == "" then "" else "/" ++ j.resource)

/-- One XML attribute. -/
structure Attr where
  key : String
  value : String
deriving DecidableEq

/-- An XML element tree, mirroring the `xmpp.Element` abstraction:
name, namespace, attributes, character data and ordered children. -/
inductive Elem where
  | node (name ns : String) (attrs : List Attr) (text : String) (children : List Elem)

/-- Element name accessor. -/
def Elem.name : Elem → String
  | .node n _ _ _ _ => n

/-- Element namespace accessor (the `xmlns` value). -/
def Elem.ns : Elem → String
  | .node _ x _ _ _ => x

/-- Element attribute-list accessor. -/
def Elem.attrs : Elem → List Attr
  | .node _ _ a _ _ => a

/-- Element text accessor. -/
def Elem.text : Elem → String
  | .node _ _ _ t _ => t

/-- Element children accessor. -/
def Elem.children : Elem → List Elem
  | .node _ _ _ _ c => c

/-- Mirrors `Element.Attributes().Get`: first attribute with the given key. -/
def Elem.getAttr (e : Elem) (k : String) : Option String :=
  (e.attrs.find? (fun a => a.key == k)).map Attr.value

/-- Mirrors Go attribute lookup, which returns `""` for a missing attribute. -/
def Elem.getAttrD (e : Elem) (k : String) : String :=
  (e.getAttr k).getD ""

/-- Mirrors `Element.SetAttribute`: replace the attribute if present,
append it otherwise. -/
def setAttrList (k v : String) : List Attr → List Attr
  | [] => [⟨k, v⟩]
  | a :: rest => if a.key == k then ⟨k, v⟩ :: rest else a :: setAttrList k v rest

/-- `Element.SetAttribute` lifted to elements. -/
def Elem.setAttr (e : Elem) (k v : String) : Elem :=
  .node e.name e.ns (setAttrList k v e.attrs) e.text e.children

/-- Mirrors `Element.AppendElement`. -/
def Elem.appendChild (e c : Elem) : Elem :=
  .node e.name e.ns e.attrs e.text (e.children ++ [c])

/-- Mirrors `Elements().Child`: first child with the given name. -/
def Elem.childNamed (e : Elem) (n : String) : Option Elem :=
  e.children.find? (fun c => c.name == n)

/-- Mirrors `Elements().ChildNamespace`: first child with the given name
and namespace. -/
def Elem.childNS (e : Elem) (n x : String) : Option Elem :=
  e.children.find? (fun c => c.name == n && c.ns == x)

/-- Mirrors `Element.Type()` (empty when the attribute is absent). -/
def Elem.typ (e : Elem) : String :=
  e.getAttrD "type"

/-- Mirrors `Element.ID()`. -/
def Elem.idAttr (e : Elem) : String :=
  e.getAttrD "id"

/-! ## Protocol namespaces (constants of `c2s` and the modules) -/

def tlsNamespace : String := "urn:ietf:params:xml:ns:xmpp-tls"

def saslNamespace : String := "urn:ietf:params:xml:ns:xmpp-sasl"

def bindNamespace : String := "urn:ietf:params:xml:ns:xmpp-bind"

def vCardNamespace : String := "vcard-temp"

def privateNamespace : String := "jabber:iq:private"

/-! ## Stanzas -/

/-- An IQ stanza: the underlying element together with the parsed
sender and recipient JIDs, mirroring `xmpp.IQ`. -/
structure IQ where
  elem : Elem
  fromJ : JID
  toJ : JID

/-- Mirrors `IQ.ID()`. -/
def IQ.id (iq : IQ) : String :=
  iq.elem.idAttr

/-- Mirrors `IQ.IsGet()`. -/
def IQ.isGet (iq : IQ) : Bool :=
  iq.elem.typ == "get"

/-- Mirrors `IQ.IsSet()`. -/
def IQ.isSet (iq : IQ) : Bool :=
  iq.elem.typ == "set"

/-- A message stanza: element plus parsed addresses, mirroring `xmpp.Message`. -/
structure Msg where
  elem : Elem
  fromJ : JID
  toJ : JID

/-- Modelled from the spec: the `xmpp` package's stanza-error constructors
(`ServiceUnavailableError`, `ConflictError`, `NotAllowedError`,
`BadRequestError`, `NotAcceptableError`, `InternalServerError`,
`ForbiddenError`, `RemoteServerNotFoundError` — defined outside this
repository slice) build an error response from the original stanza: a copy
of it with the `type` attribute set to `error` and an appended `error`
child carrying the defined condition (RFC 6120 §8.3).  Address swapping is
elided, as no claim depends on it. -/
def stanzaErrorChild (condition : String) : Elem :=
  .node "error" "" [] "" [.node condition "urn:ietf:params:xml:ns:xmpp-stanzas" [] "" []]

/-- The error response built from the original stanza (see
`stanzaErrorChild`). -/
def Elem.stanzaError (e : Elem) (condition : String) : Elem :=
  (e.setAttr "type" "error").appendChild (stanzaErrorChild condition)

/-- `IQ.ServiceUnavailableError` (see `Elem.stanzaError`). -/
def IQ.serviceUnavailableError (iq : IQ) : Elem :=
  iq.elem.stanzaError "service-unavailable"

/-- `IQ.RemoteServerNotFoundError` (see `Elem.stanzaError`). -/
def IQ.remoteServerNotFoundError (iq : IQ) : Elem :=
  iq.elem.stanzaError "remote-server-not-found"

/-- `IQ.ConflictError` (see `Elem.stanzaError`). -/
def IQ.conflictError (iq : IQ) : Elem :=
  iq.elem.stanzaError "conflict"

/-- `IQ.NotAllowedError` (see `Elem.stanzaError`). -/
def IQ.notAllowedError (iq : IQ) : Elem :=
  iq.elem.stanzaError "not-allowed"

/-- `IQ.BadRequestError` (see `Elem.stanzaError`). -/
def IQ.badRequestError (iq : IQ) : Elem :=
  iq.elem.stanzaError "bad-request"

/-- `IQ.NotAcceptableError` (see `Elem.stanzaError`). -/
def IQ.notAcceptableError (iq : IQ) : Elem :=
  iq.elem.stanzaError "not-acceptable"

/-- `IQ.InternalServerError` (see `Elem.stanzaError`). -/
def IQ.internalServerError (iq : IQ) : Elem :=
  iq.elem.stanzaError "internal-server-error"

/-- `IQ.ForbiddenError` (see `Elem.stanzaError`). -/
def IQ.forbiddenError (iq : IQ) : Elem :=
  iq.elem.stanzaError "forbidden"

/-- `Message.ServiceUnavailableError` (see `Elem.stanzaError`). -/
def Msg.serviceUnavailableError (m : Msg) : Elem :=
  m.elem.stanzaError "service-unavailable"

/-- `Message.RemoteServerNotFoundError` (see `Elem.stanzaError`). -/
def Msg.remoteServerNotFoundError (m : Msg) : Elem :=
  m.elem.stanzaError "remote-server-not-found"

/-- Does `e` carry an `error` child containing the given defined condition?
Used to state claims about emitted stanza errors. -/
def Elem.hasErrorCondition (e : Elem) (condition : String) : Bool :=
  match e.childNamed "error" with
  | some er => er.children.any (fun c => c.name == condition)
  | none => false

/-! ## Router outcomes and stream state -/

/-- The router's enumerated error set (`router` package). -/
inductive RouteErr where
  | notAuthenticated
  | resourceNotFound
  | notExistingAccount
  | blockedJID
  | failedRemoteConnect
deriving DecidableEq

/-- The stream state constants of `c2s/in.go`. -/
inductive Phase where
  | connecting
  | connected
  | authenticating
  | authenticated
  | sessionStarted
  | disconnected
deriving DecidableEq

/-- Stream error conditions used by the C2S core (`streamerror` package). -/
inductive StreamErrKind where
  | notAuthorized
  | invalidNamespace
  | resourceConstraint
  | systemShutdown
  | connectionTimeout
  | unsupportedStanzaType
  | undefinedCondition
deriving DecidableEq

/-- RFC 6120 §4.9 defined-condition name of a stream error. -/
def StreamErrKind.conditionName : StreamErrKind → String
  | .notAuthorized => "not-authorized"
  | .invalidNamespace => "invalid-namespace"
  | .resourceConstraint => "resource-constraint"
  | .systemShutdown => "system-shutdown"
  | .connectionTimeout => "connection-timeout"
  | .unsupportedStanzaType => "unsupported-stanza-type"
  | .undefinedCondition => "undefined-condition"

/-- Modelled from the spec: `streamerror.Error.Element()` (outside this
repository slice) renders a stream error as a `stream:error` element
wrapping the RFC 6120 §4.9 defined condition. -/
def streamErrorElem (k : StreamErrKind) : Elem :=
  .node "stream:error" "" [] ""
    [.node k.conditionName "urn:ietf:params:xml:ns:xmpp-streams" [] "" []]

/-- The argument of `inStream.disconnect`: no error, a stream error,
or any other error value. -/
inductive DiscErr where
  | noErr
  | streamErr (k : StreamErrKind)
  | otherErr
deriving DecidableEq

/-- The observable per-stream state of `inStream`, as mutated by the
actor: the state variable, the context flags, the bound-registry and
container membership, the session/transport status, and the ordered list
of elements written so far. -/
structure InStream where
  phase : Phase
  secured : Bool
  authenticated : Bool
  compressed : Bool
  username : String
  domain : String
  resource : String
  activeAuth : Option String
  registered : Bool
  inContainer : Bool
  sessionOpened : Bool
  sessionClosed : Bool
  doneClosed : Bool
  tlsStarted : Bool
  sessionRestarts : Nat
  transportClosed : Bool
  writes : List Elem

/-- Mirrors `inStream.writeElement` / `session.Send`. -/
def writeElement (e : Elem) (s : InStream) : InStream :=
  { s with writes := s.writes ++ [e] }

/-- Mirrors `inStream.restartSession`: fresh session, state back to
`connecting`. -/
def restartSession (s : InStream) : InStream :=
  { s with phase := .connecting, sessionRestarts := s.sessionRestarts + 1 }

/-- Mirrors `inStream.disconnectClosingSession`: optionally close the
session, signal termination, optionally unregister from the router,
drop the container entry, set the state to `disconnected` and close the
transport. -/
def disconnectClosingSession (closeSession unbind : Bool) (s : InStream) : InStream :=
  let s1 := if closeSession then { s with sessionClosed := true } else s
  let s2 := { s1 with doneClosed := true }
  let s3 := if unbind then { s2 with registered := false } else s2
  { s3 with inContainer := false, phase := .disconnected, transportClosed := true }

/-- Mirrors `inStream.disconnectWithStreamError`: open the envelope when
still `connecting`, write the stream error, and close; unregister unless
the error is `system-shutdown`. -/
def disconnectWithStreamError (k : StreamErrKind) (s : InStream) : InStream :=
  let s1 := if s.phase == .connecting then { s with sessionOpened := true } else s
  let s2 := writeElement (streamErrorElem k) s1
  let unregister := k != .systemShutdown
  disconnectClosingSession true unregister s2

/-- Mirrors `inStream.disconnect` (run on the actor): no-op when already
disconnected; a `nil` or unrecognized error closes the session without a
stream error, a stream error goes through `disconnectWithStreamError`. -/
def disconnectRun (err : DiscErr) (s : InStream) : InStream :=
  if s.phase == .disconnected then s
  else
    match err with
    | .noErr => disconnectClosingSession false true s
    | .streamErr k => disconnectWithStreamError k s
    | .otherErr => disconnectClosingSession false true s

/-- Mirrors the exported `inStream.Disconnect(err)`: returns immediately
when already disconnected, otherwise posts `disconnect(err)` to the actor
and waits for it to run. -/
def inStreamDisconnect (err : DiscErr) (s : InStream) : InStream :=
  if s.phase == .disconnected then s else disconnectRun err s

/-! ## TLS negotiation (`inStream.proceedStartTLS`) -/

/-- The `<proceed/>` reply of `proceedStartTLS`. -/
def proceedElem : Elem :=
  .node "proceed" tlsNamespace [] "" []

/-- Mirrors `inStream.proceedStartTLS`: reject a second STARTTLS with
`not-authorized`, reject a foreign non-empty namespace with
`invalid-namespace`, otherwise mark the stream secured, reply
`<proceed/>`, start TLS on the transport and restart the session. -/
def proceedStartTLS (elem : Elem) (s : InStream) : InStream :=
  if s.secured then disconnectWithStreamError .notAuthorized s
  else if elem.ns != "" && elem.ns != tlsNamespace then
    disconnectWithStreamError .invalidNamespace s
  else
    let s1 := { s with secured := true }
    let s2 := writeElement proceedElem s1
    let s3 := { s2 with tlsStarted := true }
    restartSession s3

/-! ## SASL negotiation (`inStream.startAuthentication`) -/

/-- An abstract authenticator (the `auth.Authenticator` interface):
its mechanism name, the outcome of `ProcessElement` on a given element,
and the `Authenticated`/`Username` observations afterwards. -/
structure Authenticator where
  mechanism : String
  process : Elem → Option Elem
  processOtherErr : Elem → Bool
  authenticatedAfter : Elem → Bool
  usernameAfter : Elem → String

/-- A SASL `<failure>` element wrapping the given condition child. -/
def saslFailure (child : Elem) : Elem :=
  .node "failure" saslNamespace [] "" [child]

/-- The `<failure><invalid-mechanism/></failure>` reply of
`startAuthentication`. -/
def invalidMechanismFailure : Elem :=
  saslFailure (.node "invalid-mechanism" "" [] "" [])

/-- The element of `auth.ErrSASLTemporaryAuthFailure`. -/
def tempAuthFailureElem : Elem :=
  .node "temporary-auth-failure" "" [] "" []

/-- Mirrors `inStream.failAuthentication`: emit the `<failure>` wrapper,
reset the active authenticator and fall back to `connected`. -/
def failAuthentication (child : Elem) (s : InStream) : InStream :=
  let s1 := writeElement (saslFailure child) s
  { s1 with activeAuth := none, phase := .connected }

/-- Mirrors `inStream.finishAuthentication`: clear the active
authenticator, record the username, mark the stream authenticated and
restart the session. -/
def finishAuthentication (username : String) (s : InStream) : InStream :=
  restartSession { s with activeAuth := none, username := username, authenticated := true }

/-- Mirrors `inStream.continueAuthentication`: feed the element to the
authenticator; a typed SASL error or any other error produces a
`<failure>` reply (the latter as `temporary-auth-failure`) and reports
that an error occurred. -/
def continueAuthentication (elem : Elem) (authr : Authenticator) (s : InStream) :
    InStream × Bool :=
  match authr.process elem with
  | some saslErrEl => (failAuthentication saslErrEl s, true)
  | none =>
    if authr.processOtherErr elem then (failAuthentication tempAuthFailureElem s, true)
    else (s, false)

/-- Mirrors `inStream.startAuthentication`: a non-SASL namespace is a
stream error `invalid-namespace`; otherwise the first authenticator whose
mechanism equals the element's `mechanism` attribute consumes it (either
finishing authentication at once or becoming the active authenticator in
state `authenticating`); with no match, reply
`<failure><invalid-mechanism/></failure>`. -/
def startAuthentication (auths : List Authenticator) (elem : Elem) (s : InStream) : InStream :=
  if elem.ns != saslNamespace then disconnectWithStreamError .invalidNamespace s
  else
    let mech := elem.getAttrD "mechanism"
    match auths.find? (fun a => a.mechanism == mech) with
    | some authr =>
      match continueAuthentication elem authr s with
      | (s1, true) => s1
      | (s1, false) =>
        if authr.authenticatedAfter elem then
          finishAuthentication (authr.usernameAfter elem) s1
        else
          { s1 with activeAuth := some authr.mechanism, phase := .authenticating }
    | none => writeElement invalidMechanismFailure s

/-! ## Stream features (`inStream.unauthenticatedFeatures`) -/

/-- The `<starttls>` feature advertised on a not-yet-secured socket. -/
def startTLSFeature : Elem :=
  .node "starttls" tlsNamespace [] "" [.node "required" "" [] "" []]

/-- The `<mechanisms>` feature listing every configured authenticator. -/
def mechanismsElem (auths : List Authenticator) : Elem :=
  .node "mechanisms" saslNamespace [] ""
    (auths.map (fun a => .node "mechanism" "" [] a.mechanism []))

/-- Mirrors `inStream.unauthenticatedFeatures`: advertise `<starttls>`
(with `<required/>`) on an unsecured socket transport, and advertise the
SASL `<mechanisms>` unless on an insecure socket and provided some
authenticator is configured. -/
def unauthenticatedFeatures (isSocketTr secured : Bool) (auths : List Authenticator) :
    List Elem :=
  let features : List Elem := []
  let features := if isSocketTr && !secured then features ++ [startTLSFeature] else features
  let shouldOfferSASL := !isSocketTr || (isSocketTr && secured)
  if shouldOfferSASL && !auths.isEmpty then features ++ [mechanismsElem auths]
  else features

/-! ## Message processing (`inStream.processMessage`) -/

/-- One run of the `sendMessage` loop of `inStream.processMessage`:
the sequence of messages handed to `router.Route` (in order), the
elements written back to the client, and whether the loop terminated
within the given fuel. -/
structure MsgRun where
  attempts : List Msg
  writes : List Elem
  terminated : Bool

/-- Mirrors the `sendMessage` loop of `inStream.processMessage` literally:
route the message; on `ErrResourceNotFound` rebind only the local
variable `toJID` to the bare JID and jump back (the message itself is
passed to `router.Route` unchanged); other outcomes write the mapped
stanza error (the `ErrNotAuthenticated` offline hand-off is commented out
in the source).  The jump is fueled so the embedding stays total. -/
def processMessageLoop (route : Msg → Option RouteErr) :
    Nat → Msg → JID → MsgRun
  | 0, _, _ => ⟨[], [], false⟩
  | Nat.succ fuel, message, toJID =>
    match route message with
    | none => ⟨[message], [], true⟩
    | some .notAuthenticated => ⟨[message], [], true⟩
    | some .resourceNotFound =>
      let r := processMessageLoop route fuel message toJID.toBareJID
      ⟨message :: r.attempts, r.writes, r.terminated⟩
    | some .notExistingAccount => ⟨[message], [message.serviceUnavailableError], true⟩
    | some .blockedJID => ⟨[message], [message.serviceUnavailableError], true⟩
    | some .failedRemoteConnect => ⟨[message], [message.remoteServerNotFoundError], true⟩

/-- `inStream.processMessage`: enter the loop with `toJID :=
message.ToJID()`. -/
def processMessage (route : Msg → Option RouteErr) (fuel : Nat) (message : Msg) : MsgRun :=
  processMessageLoop route fuel message message.toJ

/-! ## IQ processing in `sessionStarted` (`inStream.processIQ`) -/

/-- Observable actions of `inStream.processIQ`: an element written back
to the originating client, or the IQ being handed to the first matching
registered handler (identified by its match predicate). -/
inductive IQAction where
  | write (e : Elem)
  | handled (h : IQ → Bool)

/-- Mirrors `inStream.processIQ`: a full-JID or non-local recipient is
routed (mapping `ResourceNotFound`, `FailedRemoteConnect` and — for
requests — `BlockedJID` to stanza errors); otherwise the stream replies
on behalf, giving the IQ to the first matching handler, and answers
`service-unavailable` to an unmatched get/set. -/
def processIQ (isLocalHost : String → Bool) (route : IQ → Option RouteErr)
    (handlers : List (IQ → Bool)) (iq : IQ) : List IQAction :=
  let replyOnBehalf := !iq.toJ.isFullWithUser && isLocalHost iq.toJ.domain
  if !replyOnBehalf then
    match route iq with
    | some .resourceNotFound => [.write iq.serviceUnavailableError]
    | some .failedRemoteConnect => [.write iq.remoteServerNotFoundError]
    | some .blockedJID =>
      if iq.isGet || iq.isSet then [.write iq.serviceUnavailableError] else []
    | _ => []
  else
    match handlers.find? (fun h => h iq) with
    | some h => [.handled h]
    | none =>
      if iq.isGet || iq.isSet then [.write iq.serviceUnavailableError] else []

/-! ## Resource binding (`inStream.bindResource`) -/

/-- The configured resource-conflict policy (`c2s` config); the Go
`switch` treats anything other than `Override` and `Replace` — in
particular the default `Reject` — in its `default` branch. -/
inductive ResourceConflict where
  | override
  | replace
  | reject
deriving DecidableEq

/-- Another stream of the same bare JID, as seen through
`router.UserStreams`: only its bound resource matters here. -/
structure BoundStream where
  resource : String
deriving DecidableEq

/-- Observable actions of `inStream.bindResource`. -/
inductive BindAction where
  | write (e : Elem)
  | disconnectStm (resource : String) (k : StreamErrKind)
  | routerBind (j : JID)

/-- Modelled from the spec: `xmpp.NewIQType(id, result)` with
`SetNamespace(iq.Namespace())` (outside this repository slice) makes a
fresh result IQ carrying the original id; `bindResource` then appends
`<bind><jid>user@domain/resource</jid></bind>`. -/
def bindResultElem (iq : IQ) (username domain resource : String) : Elem :=
  .node "iq" iq.elem.ns [⟨"id", iq.id⟩, ⟨"type", "result"⟩] ""
    [.node "bind" bindNamespace [] ""
      [.node "jid" "" [] (username ++ "@" ++ domain ++ "/" ++ resource) []]]

/-- The `for` loop of `bindResource` over `router.UserStreams`: it keeps
overwriting `stm`, so the last stream owning the resource wins. -/
def findOwningStream (stms : List BoundStream) (resource : String) : Option BoundStream :=
  stms.foldl (fun acc st => if st.resource == resource then some st else acc) none

/-- The tail of `bindResource` after conflict resolution: build the user
JID (`jidValid` stands for `jid.New` succeeding under stringprep),
register in the router and reply with the bind result — or answer
`bad-request` when JID construction fails.  `pre` carries actions already
taken by the `Replace` branch. -/
def bindProceed (jidValid : String → String → String → Bool)
    (username domain resource : String) (iq : IQ) (pre : List BindAction) :
    List BindAction :=
  if jidValid username domain resource then
    pre ++ [.routerBind ⟨username, domain, resource⟩,
            .write (bindResultElem iq username domain resource)]
  else
    pre ++ [.write iq.badRequestError]

/-- Mirrors `inStream.bindResource`: require a `<bind>` child in the bind
namespace (`not-allowed` otherwise); take the requested resource or a
fresh UUID (`u1`); if another stream of the user owns that resource apply
the conflict policy — `Override` rebinds under a fresh UUID (`u2`),
`Replace` disconnects the owner with `resource-constraint` and proceeds,
`Reject` (the default) answers `conflict` — then bind and reply. -/
def bindResource (policy : ResourceConflict)
    (jidValid : String → String → String → Bool)
    (username domain : String) (userStreams : List BoundStream)
    (u1 u2 : String) (iq : IQ) : List BindAction :=
  match iq.elem.childNS "bind" bindNamespace with
  | none => [.write iq.notAllowedError]
  | some bindEl =>
    let resource :=
      match bindEl.childNamed "resource" with
      | some rEl => rEl.text
      | none => u1
    match findOwningStream userStreams resource with
    | none => bindProceed jidValid username domain resource iq []
    | some st =>
      match policy with
      | .override => bindProceed jidValid username domain u2 iq []
      | .replace =>
        bindProceed jidValid username domain resource iq
          [.disconnectStm st.resource .resourceConstraint]
      | .reject => [.write iq.conflictError]

/-! ## Offline module (`Offline.archiveMessage`) -/

/-- Observable actions of `Offline.archiveMessage`: an element sent to
the module's stream, or a message inserted into offline storage for a
node. -/
inductive OffAction where
  | send (e : Elem)
  | insertOffline (e : Elem) (node : String)

/-- Whether an offline action is a storage insertion. -/
def OffAction.isInsert : OffAction → Bool
  | .insertOffline _ _ => true
  | .send _ => false

/-- Modelled from the spec: `Element.Delay(from, desc)` (xmpp package,
outside this repository slice) appends a `<delay>` child in the
`urn:xmpp:delay` namespace carrying `from` and the current timestamp
(abstracted as the parameter `stamp`), with the description as text. -/
def Elem.delay (e : Elem) (fromStr desc stamp : String) : Elem :=
  e.appendChild (.node "delay" "urn:xmpp:delay" [⟨"from", fromStr⟩, ⟨"stamp", stamp⟩] desc [])

/-- Mirrors `Offline.archiveMessage`: count the recipient's stored
offline messages (`countRes` is the storage reply; an error aborts); at
or above the configured queue size bounce a copy of the message back to
the module's stream as `service-unavailable`, otherwise insert a copy
extended with a delay child into storage. -/
def archiveMessage (queueSizeCfg : Nat) (countRes : Except Unit Nat)
    (stmJ : JID) (stmDomain now : String) (message : Msg) : List OffAction :=
  match countRes with
  | .error _ => []
  | .ok queueSize =>
    if queueSizeCfg ≤ queueSize then
      let response := (message.elem.setAttr "from" message.toJ.toStr).setAttr "to" stmJ.toStr
      [.send (response.stanzaError "service-unavailable")]
    else
      let delayed := message.elem.delay stmDomain "Offline Storage" now
      [.insertOffline delayed message.toJ.node]

/-! ## vCard module (`VCard.getVCard`) -/

/-- Observable actions of the vCard module: routing an element, or
fetching the stored vCard of a node. -/
inductive VCardAction where
  | route (e : Elem)
  | fetchVCard (node : String)

/-- Modelled from the spec: `IQ.ResultIQ()` (outside this repository
slice) builds a fresh result IQ carrying the original id and the swapped
addresses, with no children. -/
def IQ.resultIQ (iq : IQ) : Elem :=
  .node "iq" "" [⟨"id", iq.id⟩, ⟨"type", "result"⟩,
    ⟨"from", iq.elem.getAttrD "to"⟩, ⟨"to", iq.elem.getAttrD "from"⟩] "" []

/-- The empty `<vCard xmlns="vcard-temp"/>` element. -/
def emptyVCardElem : Elem :=
  .node "vCard" vCardNamespace [] "" []

/-- Mirrors `VCard.getVCard`: a non-empty request payload is a
`bad-request`; otherwise fetch the recipient's stored vCard (`fetchRes`
is the storage reply) and route a result IQ carrying the stored element,
or an empty `<vCard/>` when storage has none. -/
def getVCard (fetchRes : Except Unit (Option Elem)) (vCardEl : Elem) (iq : IQ) :
    List VCardAction :=
  if vCardEl.children.length > 0 then [.route iq.badRequestError]
  else
    .fetchVCard iq.toJ.node ::
      match fetchRes with
      | .error _ => [.route iq.internalServerError]
      | .ok (some resElem) => [.route (iq.resultIQ.appendChild resElem)]
      | .ok none => [.route (iq.resultIQ.appendChild emptyVCardElem)]

/-! ## Private XML storage module (`Private`) -/

/-- Go's `strings.HasPrefix`, computed on character lists so that
concrete instances evaluate by reduction. -/
def strStartsWith (s pre : String) : Bool :=
  pre.data.isPrefixOf s.data

/-- Mirrors `Private.isValidNamespace`: the reserved prefixes `jabber:`
and `http://jabber.org/` and the namespace `vcard-temp` are invalid. -/
def isValidNamespace (x : String) : Bool :=
  !(strStartsWith x "jabber:") && !(strStartsWith x "http://jabber.org/") &&
    !(x == "vcard-temp")

/-- Observable actions of the private storage module: routing an element,
fetching the private XML stored under a namespace for a node, or storing
elements under a namespace for a node. -/
inductive PrivAction where
  | route (e : Elem)
  | fetchXML (ns node : String)
  | storeXML (ns node : String) (els : List Elem)

/-- Whether a private-storage action touches storage. -/
def PrivAction.isStorageOp : PrivAction → Bool
  | .route _ => false
  | .fetchXML _ _ => true
  | .storeXML _ _ _ => true

/-- Whether a private-storage action only ever touches storage under a
valid (non-reserved) namespace. -/
def PrivAction.nsOk : PrivAction → Bool
  | .route _ => true
  | .fetchXML x _ => isValidNamespace x
  | .storeXML x _ _ => isValidNamespace x

/-- Mirrors `Private.getPrivate`: the query must hold exactly one
childless element in a valid namespace (`not-acceptable` otherwise);
then fetch the stored elements (`fetchRes` is the storage reply) and
route a result whose query carries them, or an empty element of the
requested name and namespace when storage has none. -/
def getPrivate (fetchRes : Except Unit (Option (List Elem))) (userJID : JID)
    (iq : IQ) (q : Elem) : List PrivAction :=
  match q.children with
  | [privElem] =>
    if privElem.children.length > 0 || !isValidNamespace privElem.ns then
      [.route iq.notAcceptableError]
    else
      .fetchXML privElem.ns userJID.node ::
        match fetchRes with
        | .error _ => [.route iq.internalServerError]
        | .ok privElements =>
          let query :=
            match privElements with
            | some els => Elem.node "query" privateNamespace [] "" els
            | none =>
              Elem.node "query" privateNamespace [] ""
                [.node privElem.name privElem.ns [] "" []]
          [.route (iq.resultIQ.appendChild query)]
  | _ => [.route iq.notAcceptableError]

/-- The `nsElements` grouping of `Private.setPrivate`: append the element
under its namespace, first occurrence fixing the order. -/
def insertNSElem (seen : List (String × List Elem)) (x : String) (el : Elem) :
    List (String × List Elem) :=
  match seen with
  | [] => [(x, [el])]
  | (y, els) :: rest =>
    if y == x then (y, els ++ [el]) :: rest else (y, els) :: insertNSElem rest x el

/-- The storage loop of `Private.setPrivate`: insert each namespace group
(`insertOk` is the storage reply per namespace); a failed insertion
routes `internal-server-error` and stops, a full pass routes the result
IQ. -/
def storePrivateAll (insertOk : String → Bool) (node : String) (iq : IQ) :
    List (String × List Elem) → List PrivAction
  | [] => [.route iq.resultIQ]
  | (x, els) :: rest =>
    if insertOk x then .storeXML x node els :: storePrivateAll insertOk node iq rest
    else [.storeXML x node els, .route iq.internalServerError]

/-- The validation loop of `Private.setPrivate` over the query's
children: an element with an empty namespace is a `bad-request`, one with
a reserved namespace a `not-acceptable`; when all pass, the grouped
elements are stored. -/
def setPrivateLoop (insertOk : String → Bool) (node : String) (iq : IQ) :
    List Elem → List (String × List Elem) → List PrivAction
  | [], seen => storePrivateAll insertOk node iq seen
  | c :: rest, seen =>
    if c.ns == "" then [.route iq.badRequestError]
    else if !isValidNamespace c.ns then [.route iq.notAcceptableError]
    else setPrivateLoop insertOk node iq rest (insertNSElem seen c.ns c)

/-- Mirrors `Private.setPrivate`. -/
def setPrivate (insertOk : String → Bool) (userJID : JID) (iq : IQ) (q : Elem) :
    List PrivAction :=
  setPrivateLoop insertOk userJID.node iq q.children []

/-- Mirrors `Private.processIQ`: a recipient that is neither the server
nor the sender's own node is `forbidden`; gets and sets dispatch to
`getPrivate` / `setPrivate`, anything else is a `bad-request`. -/
def privateProcessIQ (fetchRes : Except Unit (Option (List Elem)))
    (insertOk : String → Bool) (iq : IQ) (q : Elem) : List PrivAction :=
  let validTo := iq.toJ.isServer || iq.toJ.node == iq.fromJ.node
  if !validTo then [.route iq.forbiddenError]
  else if iq.isGet then getPrivate fetchRes iq.fromJ iq q
  else if iq.isSet then setPrivate insertOk iq.fromJ iq q
  else [.route iq.badRequestError]

/-! ## Concrete instances used in counterexamples and witnesses -/

/-- A chat message addressed to a full JID whose resource is not bound. -/
def c1msg : Msg :=
  { elem := .node "message" ""
      [⟨"id", "m1"⟩, ⟨"type", "chat"⟩,
       ⟨"from", "ortuman@jackal.im/balcony"⟩, ⟨"to", "noelia@jackal.im/garden"⟩] ""
      [.node "body" "" [] "are you there?" []],
    fromJ := ⟨"ortuman", "jackal.im", "balcony"⟩,
    toJ := ⟨"noelia", "jackal.im", "garden"⟩ }

/-- A router in which the recipient has bound streams but never the
requested resource, so `Route` persistently reports
`ErrResourceNotFound`. -/
def routeAlwaysResourceNotFound : Msg → Option RouteErr :=
  fun _ => some .resourceNotFound

/-- A live, bound, session-started stream. -/
def c2stm : InStream :=
  { phase := .sessionStarted, secured := true, authenticated := true,
    compressed := false, username := "ortuman", domain := "jackal.im",
    resource := "balcony", activeAuth := none, registered := true,
    inContainer := true, sessionOpened := true, sessionClosed := false,
    doneClosed := false, tlsStarted := true, sessionRestarts := 2,
    transportClosed := false, writes := [] }

/-- A get IQ addressed to the local server with a payload no module
understands. -/
def c3iq : IQ :=
  { elem := .node "iq" ""
      [⟨"id", "x1"⟩, ⟨"type", "get"⟩,
       ⟨"from", "ortuman@jackal.im/balcony"⟩, ⟨"to", "jackal.im"⟩] ""
      [.node "query" "urn:example:unknown" [] "" []],
    fromJ := ⟨"ortuman", "jackal.im", "balcony"⟩,
    toJ := ⟨"", "jackal.im", ""⟩ }

/-- The host table: `jackal.im` is the single local host. -/
def c3isLocal : String → Bool := fun d => d == "jackal.im"

/-- A handler list whose single registered handler matches nothing. -/
def c3handlers : List (IQ → Bool) := [fun _ => false]

/-- A router stub (unused on the reply-on-behalf path). -/
def c3route : IQ → Option RouteErr := fun _ => none

/-- A bind IQ requesting the resource `balcony`. -/
def c4iq : IQ :=
  { elem := .node "iq" "" [⟨"id", "b1"⟩, ⟨"type", "set"⟩] ""
      [.node "bind" bindNamespace [] "" [.node "resource" "" [] "balcony" []]],
    fromJ := ⟨"ortuman", "jackal.im", ""⟩,
    toJ := ⟨"", "jackal.im", ""⟩ }

/-- The `<bind>` child of `c4iq`. -/
def c4bindEl : Elem :=
  .node "bind" bindNamespace [] "" [.node "resource" "" [] "balcony" []]

/-- The `<resource>` child of `c4bindEl`. -/
def c4resEl : Elem := .node "resource" "" [] "balcony" []

/-- The user's other streams: one of them already owns `balcony`. -/
def c4streams : List BoundStream := [⟨"garden"⟩, ⟨"balcony"⟩]

/-- Stringprep that accepts everything. -/
def c4jidValid : String → String → String → Bool := fun _ _ _ => true

/-- A configured PLAIN authenticator that succeeds immediately. -/
def c5auth : Authenticator :=
  { mechanism := "PLAIN", process := fun _ => none,
    processOtherErr := fun _ => false,
    authenticatedAfter := fun _ => true, usernameAfter := fun _ => "ortuman" }

/-- A secured but unauthenticated stream in state `connected`. -/
def c5stm : InStream :=
  { phase := .connected, secured := true, authenticated := false,
    compressed := false, username := "", domain := "jackal.im",
    resource := "", activeAuth := none, registered := false,
    inContainer := true, sessionOpened := true, sessionClosed := false,
    doneClosed := false, tlsStarted := true, sessionRestarts := 1,
    transportClosed := false, writes := [] }

/-- An `<auth>` element in a non-SASL namespace selecting an unknown
mechanism. -/
def c5elemBadNS : Elem :=
  .node "auth" "urn:example:not-sasl" [⟨"mechanism", "FOO"⟩] "" []

/-- An `<auth>` element in the SASL namespace selecting an unknown
mechanism. -/
def c5elemSasl : Elem :=
  .node "auth" saslNamespace [⟨"mechanism", "FOO"⟩] "" []

/-- An unsecured socket stream in state `connected`. -/
def c6stm : InStream :=
  { phase := .connected, secured := false, authenticated := false,
    compressed := false, username := "", domain := "jackal.im",
    resource := "", activeAuth := none, registered := false,
    inContainer := true, sessionOpened := true, sessionClosed := false,
    doneClosed := false, tlsStarted := false, sessionRestarts := 0,
    transportClosed := false, writes := [] }

/-- A `<starttls>` element in the TLS namespace. -/
def c6elem : Elem := .node "starttls" tlsNamespace [] "" []

/-- A configured SCRAM-SHA-1 authenticator stub. -/
def c7auth : Authenticator :=
  { mechanism := "SCRAM-SHA-1", process := fun _ => none,
    processOtherErr := fun _ => false,
    authenticatedAfter := fun _ => false, usernameAfter := fun _ => "" }

/-- The offline module's stream owner. -/
def c8stmJ : JID := ⟨"ortuman", "jackal.im", "balcony"⟩

/-- A message for an offline recipient. -/
def c8msg : Msg :=
  { elem := .node "message" ""
      [⟨"id", "m8"⟩, ⟨"type", "normal"⟩,
       ⟨"from", "ortuman@jackal.im/balcony"⟩, ⟨"to", "noelia@jackal.im"⟩] ""
      [.node "body" "" [] "see you later" []],
    fromJ := ⟨"ortuman", "jackal.im", "balcony"⟩,
    toJ := ⟨"noelia", "jackal.im", ""⟩ }

/-- A vCard get IQ for a user with no stored vCard. -/
def c9iq : IQ :=
  { elem := .node "iq" ""
      [⟨"id", "v1"⟩, ⟨"type", "get"⟩,
       ⟨"from", "ortuman@jackal.im/balcony"⟩, ⟨"to", "alice@jackal.im"⟩] ""
      [.node "vCard" vCardNamespace [] "" []],
    fromJ := ⟨"ortuman", "jackal.im", "balcony"⟩,
    toJ := ⟨"alice", "jackal.im", ""⟩ }

/-- An empty `<vCard/>` request payload. -/
def c9vCardOk : Elem := .node "vCard" vCardNamespace [] "" []

/-- A non-empty `<vCard>` request payload. -/
def c9vCardBad : Elem :=
  .node "vCard" vCardNamespace [] "" [.node "FN" "" [] "Alice" []]

/-- A private-storage IQ owner. -/
def c10uj : JID := ⟨"ortuman", "jackal.im", "balcony"⟩

/-- A private-storage get/set IQ. -/
def c10iq : IQ :=
  { elem := .node "iq" ""
      [⟨"id", "p1"⟩, ⟨"type", "get"⟩,
       ⟨"from", "ortuman@jackal.im/balcony"⟩, ⟨"to", "ortuman@jackal.im"⟩] ""
      [.node "query" privateNamespace [] ""
        [.node "query" "jabber:iq:roster" [] "" []]],
    fromJ := ⟨"ortuman", "jackal.im", "balcony"⟩,
    toJ := ⟨"ortuman", "jackal.im", ""⟩ }

/-- The reserved-namespace payload element of `c10iq`. -/
def c10payload : Elem := .node "query" "jabber:iq:roster" [] "" []

/-- The private-storage query wrapping `c10payload`. -/
def c10q : Elem := .node "query" privateNamespace [] "" [c10payload]

/-! ## Helper lemmas -/

/-- `SetAttribute` on one key leaves lookups of a different key alone. -/
theorem setAttrList_find?_ne (k v k2 : String) (h : k ≠ k2) (l : List Attr) :
    (setAttrList k v l).find? (fun a => a.key == k2) = l.find? (fun a => a.key == k2) := by
  induction l with
  | nil =>
    simp only [setAttrList]
    rw [List.find?_cons_of_neg _ (by simp [h]), List.find?_nil]
  | cons a rest ih =>
    simp only [setAttrList]
    by_cases hk : a.key = k
    · rw [if_pos (by simp [hk])]
      rw [List.find?_cons_of_neg _ (by simp [h]),
        List.find?_cons_of_neg _ (by simp [hk, h])]
    · rw [if_neg (by simp [hk])]
      by_cases hk2 : a.key = k2
      · rw [List.find?_cons_of_pos _ (by simp [hk2]),
          List.find?_cons_of_pos _ (by simp [hk2])]
      · rw [List.find?_cons_of_neg _ (by simp [hk2]),
          List.find?_cons_of_neg _ (by simp [hk2]), ih]

/-- `SetAttribute` makes the written key's lookup return the new value. -/
theorem setAttrList_find?_eq (k v : String) (l : List Attr) :
    (setAttrList k v l).find? (fun a => a.key == k) = some ⟨k, v⟩ := by
  induction l with
  | nil =>
    simp only [setAttrList]
    rw [List.find?_cons_of_pos _ (by simp)]
  | cons a rest ih =>
    simp only [setAttrList]
    by_cases hk : a.key = k
    · rw [if_pos (by simp [hk])]
      rw [List.find?_cons_of_pos _ (by simp)]
    · rw [if_neg (by simp [hk])]
      rw [List.find?_cons_of_neg _ (by simp [hk]), ih]

/-- A stanza error carries the original stanza's id. -/
theorem stanzaError_idAttr (e : Elem) (condition : String) :
    (e.stanzaError condition).idAttr = e.idAttr := by
  unfold Elem.stanzaError Elem.idAttr Elem.getAttrD Elem.getAttr Elem.appendChild Elem.setAttr
  simp [Elem.attrs, setAttrList_find?_ne "type" "error" "id" (by decide)]

/-- A stanza error is typed `error`. -/
theorem stanzaError_typ (e : Elem) (condition : String) :
    (e.stanzaError condition).typ = "error" := by
  unfold Elem.stanzaError Elem.typ Elem.getAttrD Elem.getAttr Elem.appendChild Elem.setAttr
  simp [Elem.attrs, setAttrList_find?_eq "type" "error"]

/-- A stanza error's last child is the error element with the defined
condition. -/
theorem stanzaError_getLast (e : Elem) (condition : String) :
    (e.stanzaError condition).children.getLast? = some (stanzaErrorChild condition) := by
  unfold Elem.stanzaError Elem.appendChild Elem.setAttr
  simp [Elem.children]

/-! ## Theorems: the claims -/

/-- Auxiliary for C1: when routing persistently reports
`ErrResourceNotFound`, the `sendMessage` loop hands the *unchanged*
message to the router on every iteration, writes nothing and never
terminates (only the dead local `toJID` is rebound to the bare JID). -/
theorem processMessageLoop_const_rnf (route : Msg → Option RouteErr)
    (hr : ∀ m, route m = some .resourceNotFound) :
    ∀ (n : Nat) (msg : Msg) (j : JID),
      processMessageLoop route n msg j = ⟨List.replicate n msg, [], false⟩ := by
  intro n
  induction n with
  | zero => intro msg j; simp [processMessageLoop, List.replicate]
  | succ k ih =>
    intro msg j
    simp [processMessageLoop, hr, ih, List.replicate]

/-- C1: the claim says that on `ResourceNotFound` the message is
re-addressed to the recipient's bare JID and routing is retried exactly
once.  The code instead rebinds only the dead local variable `toJID` and
jumps back: every routing attempt carries the original full-JID message
(never the bare JID), and with a persistent `ResourceNotFound` outcome
the `goto` loop never terminates at any fuel.  This contradicts the
source's own comment ("treat the stanza as if it were addressed to
`<node@domain>`"), so the code, not the claim, is wrong. -/
theorem c1_processMessage_never_readdressed :
    ∀ fuel : Nat,
      processMessage routeAlwaysResourceNotFound fuel c1msg =
        ⟨List.replicate fuel c1msg, [], false⟩ ∧
      c1msg.toJ ≠ c1msg.toJ.toBareJID := by
  intro fuel
  constructor
  · exact processMessageLoop_const_rnf _ (fun _ => rfl) fuel c1msg c1msg.toJ
  · decide

/-- C2 counterexample: disconnecting a bound, session-started stream with
the stream error `system-shutdown` leaves the stream registered in the
router even though its state becomes `disconnected` — the claim's "absent
from the router for every error" fails at `e = system-shutdown`. -/
theorem c2_systemShutdown_keeps_registration :
    (inStreamDisconnect (.streamErr .systemShutdown) c2stm).phase = .disconnected ∧
    (inStreamDisconnect (.streamErr .systemShutdown) c2stm).registered = true := by
  constructor <;> rfl

/-- C2 amended: after `Disconnect(e)` the stream's state is always
`disconnected`; a stream that was not already disconnected is removed
from the router for every error except the stream error
`system-shutdown`, for which its registration is left untouched. -/
theorem c2_disconnect_state_and_registry :
    ∀ (e : DiscErr) (s : InStream),
      (inStreamDisconnect e s).phase = .disconnected ∧
      (s.phase ≠ .disconnected → e ≠ .streamErr .systemShutdown →
        (inStreamDisconnect e s).registered = false) ∧
      (inStreamDisconnect (.streamErr .systemShutdown) s).registered = s.registered := by
  intro e s
  by_cases hd : s.phase = .disconnected
  · refine ⟨?_, fun h => absurd hd h, ?_⟩
    · simp [inStreamDisconnect, hd]
    · simp [inStreamDisconnect, hd]
  · refine ⟨?_, ?_, ?_⟩
    · cases e with
      | noErr =>
        simp [inStreamDisconnect, disconnectRun, hd, disconnectClosingSession]
      | streamErr k =>
        simp [inStreamDisconnect, disconnectRun, hd, disconnectWithStreamError,
          disconnectClosingSession, writeElement]
      | otherErr =>
        simp [inStreamDisconnect, disconnectRun, hd, disconnectClosingSession]
    · intro _ hne
      cases e with
      | noErr =>
        simp [inStreamDisconnect, disconnectRun, hd, disconnectClosingSession]
      | streamErr k =>
        have hk : k ≠ .systemShutdown := by
          intro hval; exact hne (by rw [hval])
        simp [inStreamDisconnect, disconnectRun, hd, disconnectWithStreamError,
          disconnectClosingSession, writeElement, hk]
      | otherErr =>
        simp [inStreamDisconnect, disconnectRun, hd, disconnectClosingSession]
    · by_cases hc : s.phase = .connecting <;>
        simp [inStreamDisconnect, disconnectRun, hd, disconnectWithStreamError,
          disconnectClosingSession, writeElement, hc]

/-- C2 witness: a clean disconnect of a live bound stream ends
disconnected and unregistered. -/
theorem c2_disconnect_witness :
    (inStreamDisconnect .noErr c2stm).phase = .disconnected ∧
    (inStreamDisconnect .noErr c2stm).registered = false := by
  have h := c2_disconnect_state_and_registry .noErr c2stm
  exact ⟨h.1, h.2.1 (by decide) (by decide)⟩

/-- C3: an IQ of type get or set processed in `sessionStarted`, addressed
to the local server or a local bare JID (not a full user JID) and matched
by no registered IQ handler, yields exactly one written element: a
`service-unavailable` stanza error carrying the original IQ's id. -/
theorem c3_unmatched_iq_service_unavailable :
    ∀ (isLocalHost : String → Bool) (route : IQ → Option RouteErr)
      (handlers : List (IQ → Bool)) (iq : IQ),
      iq.toJ.isFullWithUser = false →
      isLocalHost iq.toJ.domain = true →
      (∀ h ∈ handlers, h iq = false) →
      (iq.isGet || iq.isSet) = true →
      processIQ isLocalHost route handlers iq = [.write iq.serviceUnavailableError] ∧
      iq.serviceUnavailableError.idAttr = iq.elem.idAttr ∧
      iq.serviceUnavailableError.typ = "error" ∧
      iq.serviceUnavailableError.children.getLast? =
        some (stanzaErrorChild "service-unavailable") := by
  intro isLocalHost route handlers iq h1 h2 h3 h4
  have hfind : handlers.find? (fun h => h iq) = none := by
    rw [List.find?_eq_none]
    intro x hx
    simp [h3 x hx]
  refine ⟨?_, stanzaError_idAttr _ _, stanzaError_typ _ _, stanzaError_getLast _ _⟩
  simp [processIQ, h1, h2, hfind, h4]

/-- C3 witness: the unmatched get IQ `c3iq` addressed to the host
`jackal.im`. -/
theorem c3_witness :
    processIQ c3isLocal c3route c3handlers c3iq = [.write c3iq.serviceUnavailableError] ∧
    c3iq.serviceUnavailableError.idAttr = c3iq.elem.idAttr ∧
    c3iq.serviceUnavailableError.typ = "error" ∧
    c3iq.serviceUnavailableError.children.getLast? =
      some (stanzaErrorChild "service-unavailable") := by
  exact c3_unmatched_iq_service_unavailable c3isLocal c3route c3handlers c3iq
    (by decide) (by decide)
    (by intro h hx; simp [c3handlers] at hx; subst hx; rfl) (by decide)

/-- C4: resource binding under a conflict applies the configured policy:
`Override` binds under a fresh server-generated UUID instead of the
requested resource, `Replace` disconnects the current owner with stream
error `resource-constraint` and proceeds with the requested resource, and
the default `Reject` answers a `conflict` error without binding. -/
theorem c4_bindResource_conflict_policy :
    ∀ (jidValid : String → String → String → Bool) (username domain : String)
      (userStreams : List BoundStream) (u1 u2 : String) (iq : IQ)
      (bindEl rEl : Elem) (st : BoundStream),
      iq.elem.childNS "bind" bindNamespace = some bindEl →
      bindEl.childNamed "resource" = some rEl →
      findOwningStream userStreams rEl.text = some st →
      (jidValid username domain u2 = true →
        bindResource .override jidValid username domain userStreams u1 u2 iq =
          [.routerBind ⟨username, domain, u2⟩,
           .write (bindResultElem iq username domain u2)]) ∧
      (jidValid username domain rEl.text = true →
        bindResource .replace jidValid username domain userStreams u1 u2 iq =
          [.disconnectStm st.resource .resourceConstraint,
           .routerBind ⟨username, domain, rEl.text⟩,
           .write (bindResultElem iq username domain rEl.text)]) ∧
      bindResource .reject jidValid username domain userStreams u1 u2 iq =
        [.write iq.conflictError] := by
  intro jidValid username domain userStreams u1 u2 iq bindEl rEl st hb hr hf
  refine ⟨?_, ?_, ?_⟩
  · intro hv
    simp [bindResource, hb, hr, hf, bindProceed, hv]
  · intro hv
    simp [bindResource, hb, hr, hf, bindProceed, hv]
  · simp [bindResource, hb, hr, hf]

/-- C4 witness: binding `balcony` while another stream of the same user
owns it, under each of the three policies. -/
theorem c4_witness :
    bindResource .override c4jidValid "ortuman" "jackal.im" c4streams "u-1" "u-2" c4iq =
      [.routerBind ⟨"ortuman", "jackal.im", "u-2"⟩,
       .write (bindResultElem c4iq "ortuman" "jackal.im" "u-2")] ∧
    bindResource .replace c4jidValid "ortuman" "jackal.im" c4streams "u-1" "u-2" c4iq =
      [.disconnectStm "balcony" .resourceConstraint,
       .routerBind ⟨"ortuman", "jackal.im", "balcony"⟩,
       .write (bindResultElem c4iq "ortuman" "jackal.im" "balcony")] ∧
    bindResource .reject c4jidValid "ortuman" "jackal.im" c4streams "u-1" "u-2" c4iq =
      [.write c4iq.conflictError] := by
  have h := c4_bindResource_conflict_policy c4jidValid "ortuman" "jackal.im" c4streams
    "u-1" "u-2" c4iq c4bindEl c4resEl ⟨"balcony"⟩ rfl rfl rfl
  exact ⟨h.1 rfl, h.2.1 rfl, h.2.2⟩

/-- C5 counterexample: an `<auth>` element carried in a non-SASL
namespace whose mechanism matches no configured authenticator does not
get an `<invalid-mechanism/>` failure — `startAuthentication` first
checks the namespace and disconnects the stream with stream error
`invalid-namespace`, so the state does not remain `connected`. -/
theorem c5_wrong_namespace_auth_disconnects :
    c5auth.mechanism ≠ c5elemBadNS.getAttrD "mechanism" ∧
    (startAuthentication [c5auth] c5elemBadNS c5stm).phase = .disconnected ∧
    (startAuthentication [c5auth] c5elemBadNS c5stm).phase ≠ .connected ∧
    (startAuthentication [c5auth] c5elemBadNS c5stm).writes =
      [streamErrorElem .invalidNamespace] := by
  exact ⟨by decide, rfl, by decide, rfl⟩

/-- C5 amended: for every `<auth>` element in the SASL namespace whose
mechanism matches no configured authenticator's mechanism string, the
stream emits the SASL `<failure><invalid-mechanism/></failure>` and
nothing else changes — in particular a `connected` stream remains
`connected`.  (An `<auth>` in a foreign namespace instead draws stream
error `invalid-namespace` and a disconnect.) -/
theorem c5_invalid_mechanism_failure :
    ∀ (auths : List Authenticator) (elem : Elem) (s : InStream),
      elem.ns = saslNamespace →
      (∀ a ∈ auths, a.mechanism ≠ elem.getAttrD "mechanism") →
      startAuthentication auths elem s = writeElement invalidMechanismFailure s ∧
      (startAuthentication auths elem s).phase = s.phase ∧
      (startAuthentication auths elem s).writes = s.writes ++ [invalidMechanismFailure] ∧
      (startAuthentication auths elem s).transportClosed = s.transportClosed := by
  intro auths elem s h1 h2
  have hfind : auths.find? (fun a => a.mechanism == elem.getAttrD "mechanism") = none := by
    rw [List.find?_eq_none]
    intro a ha
    simp [h2 a ha]
  have hmain : startAuthentication auths elem s = writeElement invalidMechanismFailure s := by
    simp [startAuthentication, h1, hfind]
  refine ⟨hmain, ?_, ?_, ?_⟩ <;> rw [hmain] <;> rfl

/-- C5 witness: the SASL `<auth mechanism="FOO">` against a single
configured PLAIN authenticator, on a connected stream. -/
theorem c5_witness :
    startAuthentication [c5auth] c5elemSasl c5stm =
      writeElement invalidMechanismFailure c5stm ∧
    (startAuthentication [c5auth] c5elemSasl c5stm).phase = .connected := by
  have h := c5_invalid_mechanism_failure [c5auth] c5elemSasl c5stm rfl
    (by intro a ha; simp [List.mem_singleton] at ha; subst ha; decide)
  exact ⟨h.1, h.2.1⟩

/-- C6: `proceedStartTLS` on an already-secured stream emits stream error
`not-authorized` and disconnects; on an unsecured stream with a non-empty
foreign namespace it emits stream error `invalid-namespace`; otherwise it
marks the stream secured, replies `<proceed/>`, starts TLS on the
transport and restarts the session back to `connecting`. -/
theorem c6_proceedStartTLS :
    ∀ (elem : Elem) (s : InStream),
      (s.secured = true →
        (proceedStartTLS elem s).phase = .disconnected ∧
        (proceedStartTLS elem s).writes = s.writes ++ [streamErrorElem .notAuthorized]) ∧
      (s.secured = false → elem.ns ≠ "" → elem.ns ≠ tlsNamespace →
        (proceedStartTLS elem s).phase = .disconnected ∧
        (proceedStartTLS elem s).writes = s.writes ++ [streamErrorElem .invalidNamespace]) ∧
      (s.secured = false → (elem.ns = "" ∨ elem.ns = tlsNamespace) →
        (proceedStartTLS elem s).secured = true ∧
        (proceedStartTLS elem s).writes = s.writes ++ [proceedElem] ∧
        (proceedStartTLS elem s).tlsStarted = true ∧
        (proceedStartTLS elem s).phase = .connecting) := by
  intro elem s
  refine ⟨?_, ?_, ?_⟩
  · intro hs
    by_cases hc : s.phase = .connecting <;>
      simp [proceedStartTLS, hs, disconnectWithStreamError, disconnectClosingSession,
        writeElement, hc]
  · intro hs h1 h2
    by_cases hc : s.phase = .connecting <;>
      simp [proceedStartTLS, hs, h1, h2, disconnectWithStreamError,
        disconnectClosingSession, writeElement, hc]
  · intro hs hor
    rcases hor with h | h <;>
      simp [proceedStartTLS, hs, h, writeElement, restartSession]

/-- C6 witness: a well-formed `<starttls>` on an unsecured connected
socket stream. -/
theorem c6_witness :
    (proceedStartTLS c6elem c6stm).secured = true ∧
    (proceedStartTLS c6elem c6stm).writes = c6stm.writes ++ [proceedElem] ∧
    (proceedStartTLS c6elem c6stm).tlsStarted = true ∧
    (proceedStartTLS c6elem c6stm).phase = .connecting := by
  exact (c6_proceedStartTLS c6elem c6stm).2.2 rfl (Or.inr rfl)

/-- C7 counterexample: with a secured socket transport and an empty
authenticator list, the transport is not an insecure socket yet the
feature list is empty — there is no `<mechanisms>` feature, refuting the
claim's "included exactly when the transport is not an insecure
socket". -/
theorem c7_no_authenticators_no_mechanisms :
    unauthenticatedFeatures true true [] = [] ∧
    ¬((unauthenticatedFeatures true true []).any (fun e => e.name == "mechanisms") =
        (!(true && !true))) := by
  exact ⟨rfl, by decide⟩

/-- C7 amended: the unauthenticated features contain the `<starttls>`
feature (with `<required/>`) exactly when the transport is a socket and
the stream is unsecured, and contain the SASL `<mechanisms>` feature
exactly when the transport is not an insecure socket *and* at least one
authenticator is configured, in which case the feature lists the
mechanism of every configured authenticator. -/
theorem c7_unauthenticated_features :
    ∀ (isSocketTr secured : Bool) (auths : List Authenticator),
      ((unauthenticatedFeatures isSocketTr secured auths).any
          (fun e => e.name == "starttls" && e.children.any (fun c => c.name == "required")) =
        (isSocketTr && !secured)) ∧
      ((unauthenticatedFeatures isSocketTr secured auths).any
          (fun e => e.name == "mechanisms") =
        ((!isSocketTr || (isSocketTr && secured)) && !auths.isEmpty)) ∧
      (((!isSocketTr || (isSocketTr && secured)) && !auths.isEmpty) = true →
        mechanismsElem auths ∈ unauthenticatedFeatures isSocketTr secured auths) := by
  intro isSocketTr secured auths
  cases isSocketTr <;> cases secured <;> cases auths <;>
    refine ⟨?_, ?_, ?_⟩ <;>
      first
        | rfl
        | (intro h; exact Bool.noConfusion h)
        | (intro _; exact List.Mem.head _)

/-- C7 witness: a secured socket with one configured authenticator
advertises exactly its mechanism list. -/
theorem c7_witness :
    mechanismsElem [c7auth] ∈ unauthenticatedFeatures true true [c7auth] ∧
    (unauthenticatedFeatures true true [c7auth]).any (fun e => e.name == "mechanisms") =
      true := by
  have h := c7_unauthenticated_features true true [c7auth]
  exact ⟨h.2.2 rfl, h.2.1⟩

/-- C8: when the recipient's stored offline-message count has reached the
configured queue size, the message is not stored and a copy is bounced to
the module's stream as a `service-unavailable` error; below the limit, a
copy extended with a `<delay>` child is inserted into offline storage. -/
theorem c8_offline_archive :
    ∀ (queueSizeCfg n : Nat) (stmJ : JID) (stmDomain now : String) (message : Msg),
      (queueSizeCfg ≤ n →
        archiveMessage queueSizeCfg (.ok n) stmJ stmDomain now message =
          [.send (((message.elem.setAttr "from" message.toJ.toStr).setAttr "to"
              stmJ.toStr).stanzaError "service-unavailable")] ∧
        (((message.elem.setAttr "from" message.toJ.toStr).setAttr "to"
            stmJ.toStr).stanzaError "service-unavailable").typ = "error" ∧
        (((message.elem.setAttr "from" message.toJ.toStr).setAttr "to"
            stmJ.toStr).stanzaError "service-unavailable").children.getLast? =
          some (stanzaErrorChild "service-unavailable") ∧
        ∀ a ∈ archiveMessage queueSizeCfg (.ok n) stmJ stmDomain now message,
          a.isInsert = false) ∧
      (n < queueSizeCfg →
        archiveMessage queueSizeCfg (.ok n) stmJ stmDomain now message =
          [.insertOffline (message.elem.delay stmDomain "Offline Storage" now)
            message.toJ.node] ∧
        ((message.elem.delay stmDomain "Offline Storage" now).children.getLast?).map
            Elem.name = some "delay") := by
  intro cfg n stmJ dom now msg
  constructor
  · intro h
    have harch : archiveMessage cfg (.ok n) stmJ dom now msg =
        [.send (((msg.elem.setAttr "from" msg.toJ.toStr).setAttr "to"
            stmJ.toStr).stanzaError "service-unavailable")] := by
      simp [archiveMessage, h]
    refine ⟨harch, stanzaError_typ _ _, stanzaError_getLast _ _, ?_⟩
    rw [harch]
    intro a ha
    simp at ha
    simp [ha, OffAction.isInsert]
  · intro h
    have hlt : ¬(cfg ≤ n) := Nat.not_le.mpr h
    refine ⟨?_, ?_⟩
    · simp [archiveMessage, hlt]
    · simp [Elem.delay, Elem.appendChild, Elem.children, Elem.name]

/-- C8 witness: with queue size 1 and a stored count of 2 the message is
bounced; with queue size 3 it is archived with a delay child. -/
theorem c8_witness :
    archiveMessage 1 (.ok 2) c8stmJ "jackal.im" "2018-06-01T14:00:00Z" c8msg =
      [.send (((c8msg.elem.setAttr "from" c8msg.toJ.toStr).setAttr "to"
          c8stmJ.toStr).stanzaError "service-unavailable")] ∧
    archiveMessage 3 (.ok 2) c8stmJ "jackal.im" "2018-06-01T14:00:00Z" c8msg =
      [.insertOffline (c8msg.elem.delay "jackal.im" "Offline Storage"
          "2018-06-01T14:00:00Z") c8msg.toJ.node] := by
  exact ⟨((c8_offline_archive 1 2 c8stmJ "jackal.im" "2018-06-01T14:00:00Z" c8msg).1
      (by decide)).1,
    ((c8_offline_archive 3 2 c8stmJ "jackal.im" "2018-06-01T14:00:00Z" c8msg).2
      (by decide)).1⟩

/-- C9 counterexample: a vCard get IQ whose `<vCard>` payload is
non-empty, against empty storage, is answered with a `bad-request` error
(type `error`, two children) rather than the claimed result IQ with a
single empty `<vCard/>` child — and storage is never queried. -/
theorem c9_nonempty_request_gets_bad_request :
    getVCard (.ok none) c9vCardBad c9iq = [.route c9iq.badRequestError] ∧
    c9iq.badRequestError.typ = "error" ∧
    c9iq.badRequestError.children.length = 2 := by
  exact ⟨rfl, rfl, rfl⟩

/-- C9 amended: for every vCard get IQ whose `<vCard>` request payload is
empty and whose recipient has no stored vCard (storage returns nil
without error), the module routes a result IQ that carries the original
id and exactly one child, the empty `<vCard>` element in the `vcard-temp`
namespace. -/
theorem c9_empty_vcard_get :
    ∀ (vCardEl : Elem) (iq : IQ),
      vCardEl.children = [] →
      getVCard (.ok none) vCardEl iq =
        [.fetchVCard iq.toJ.node, .route (iq.resultIQ.appendChild emptyVCardElem)] ∧
      (iq.resultIQ.appendChild emptyVCardElem).idAttr = iq.elem.idAttr ∧
      (iq.resultIQ.appendChild emptyVCardElem).typ = "result" ∧
      (iq.resultIQ.appendChild emptyVCardElem).children = [emptyVCardElem] ∧
      emptyVCardElem.ns = vCardNamespace ∧ emptyVCardElem.children = [] := by
  intro v iq h
  refine ⟨?_, rfl, rfl, rfl, rfl, rfl⟩
  simp [getVCard, h]

/-- C9 witness: the empty vCard get `c9iq` against empty storage. -/
theorem c9_vcard_witness :
    getVCard (.ok none) c9vCardOk c9iq =
      [.fetchVCard c9iq.toJ.node, .route (c9iq.resultIQ.appendChild emptyVCardElem)] ∧
    (c9iq.resultIQ.appendChild emptyVCardElem).idAttr = c9iq.elem.idAttr := by
  have h := c9_empty_vcard_get c9vCardOk c9iq rfl
  exact ⟨h.1, h.2.1⟩

/-- Auxiliary for C10: once some query child carries a reserved namespace,
the `setPrivate` validation loop stops before the storage loop, so no
storage operation is ever emitted. -/
theorem setPrivateLoop_reserved_no_storage (insertOk : String → Bool) (node : String)
    (iq : IQ) :
    ∀ (cs : List Elem) (seen : List (String × List Elem)),
      cs.any (fun c => !isValidNamespace c.ns) = true →
      ∀ a ∈ setPrivateLoop insertOk node iq cs seen, a.isStorageOp = false := by
  intro cs
  induction cs with
  | nil =>
    intro seen h
    simp at h
  | cons c rest ih =>
    intro seen h a ha
    by_cases hempty : c.ns = ""
    · simp [setPrivateLoop, hempty] at ha
      simp [ha, PrivAction.isStorageOp]
    · by_cases hvalid : isValidNamespace c.ns = true
      · have h2 : rest.any (fun c => !isValidNamespace c.ns) = true := by
          simp [List.any_cons, hvalid] at h
          simpa using h
        simp [setPrivateLoop, hempty, hvalid] at ha
        exact ih (insertNSElem seen c.ns c) h2 a ha
      · simp [setPrivateLoop, hempty, hvalid] at ha
        simp [ha, PrivAction.isStorageOp]

/-- Auxiliary for C10: when every query child has a non-empty namespace
and some child's namespace is reserved, `setPrivate` answers exactly one
`not-acceptable` error. -/
theorem setPrivateLoop_reserved_not_acceptable (insertOk : String → Bool) (node : String)
    (iq : IQ) :
    ∀ (cs : List Elem) (seen : List (String × List Elem)),
      (∀ c ∈ cs, c.ns ≠ "") →
      cs.any (fun c => !isValidNamespace c.ns) = true →
      setPrivateLoop insertOk node iq cs seen = [.route iq.notAcceptableError] := by
  intro cs
  induction cs with
  | nil =>
    intro seen _ h
    simp at h
  | cons c rest ih =>
    intro seen hne h
    have hempty : c.ns ≠ "" := hne c (List.mem_cons_self c rest)
    by_cases hvalid : isValidNamespace c.ns = true
    · have h2 : rest.any (fun c => !isValidNamespace c.ns) = true := by
        simp [List.any_cons, hvalid] at h
        simpa using h
      have hrest : ∀ x ∈ rest, x.ns ≠ "" := fun x hx => hne x (List.mem_cons_of_mem c hx)
      simp [setPrivateLoop, hempty, hvalid,
        ih (insertNSElem seen c.ns c) hrest h2]
    · simp [setPrivateLoop, hempty, hvalid]

/-- Auxiliary for C10: the storage loop only stores under the namespaces
accumulated by the validation loop. -/
theorem storePrivateAll_nsOk (insertOk : String → Bool) (node : String) (iq : IQ) :
    ∀ (seen : List (String × List Elem)),
      (∀ x ∈ seen, isValidNamespace x.1 = true) →
      ∀ a ∈ storePrivateAll insertOk node iq seen, a.nsOk = true := by
  intro seen
  induction seen with
  | nil =>
    intro _ a ha
    simp [storePrivateAll] at ha
    simp [ha, PrivAction.nsOk]
  | cons x rest ih =>
    intro hv a ha
    obtain ⟨ns0, els0⟩ := x
    by_cases hok : insertOk ns0 = true
    · simp [storePrivateAll, hok] at ha
      rcases ha with ha | ha
      · subst ha
        simpa [PrivAction.nsOk] using hv (ns0, els0) (List.mem_cons_self _ _)
      · exact ih (fun y hy => hv y (List.mem_cons_of_mem _ hy)) a ha
    · simp [storePrivateAll, hok] at ha
      rcases ha with ha | ha
      · subst ha
        simpa [PrivAction.nsOk] using hv (ns0, els0) (List.mem_cons_self _ _)
      · simp [ha, PrivAction.nsOk]

/-- Auxiliary for C10: grouping a validated (non-reserved) namespace into
`nsElements` keeps every accumulated namespace valid. -/
theorem insertNSElem_nsValid (x : String) (el : Elem) (hx : isValidNamespace x = true) :
    ∀ (seen : List (String × List Elem)),
      (∀ y ∈ seen, isValidNamespace y.1 = true) →
      ∀ y ∈ insertNSElem seen x el, isValidNamespace y.1 = true := by
  intro seen
  induction seen with
  | nil =>
    intro _ y hy
    simp [insertNSElem] at hy
    simp [hy, hx]
  | cons z rest ih =>
    intro hv y hy
    obtain ⟨zn, ze⟩ := z
    by_cases hz : zn = x
    · simp [insertNSElem, hz] at hy
      rcases hy with hy | hy
      · simp [hy, hx]
      · exact hv y (List.mem_cons_of_mem _ hy)
    · simp [insertNSElem, hz] at hy
      rcases hy with hy | hy
      · subst hy
        exact hv (zn, ze) (List.mem_cons_self _ _)
      · exact ih (fun w hw => hv w (List.mem_cons_of_mem _ hw)) y hy

/-- Auxiliary for C10: every storage operation emitted by the
`setPrivate` loop is under a valid (non-reserved) namespace. -/
theorem setPrivateLoop_nsOk (insertOk : String → Bool) (node : String) (iq : IQ) :
    ∀ (cs : List Elem) (seen : List (String × List Elem)),
      (∀ x ∈ seen, isValidNamespace x.1 = true) →
      ∀ a ∈ setPrivateLoop insertOk node iq cs seen, a.nsOk = true := by
  intro cs
  induction cs with
  | nil =>
    intro seen hv a ha
    simp only [setPrivateLoop] at ha
    exact storePrivateAll_nsOk insertOk node iq seen hv a ha
  | cons c rest ih =>
    intro seen hv a ha
    by_cases hempty : c.ns = ""
    · simp [setPrivateLoop, hempty] at ha
      simp [ha, PrivAction.nsOk]
    · by_cases hvalid : isValidNamespace c.ns = true
      · simp [setPrivateLoop, hempty, hvalid] at ha
        exact ih (insertNSElem seen c.ns c)
          (insertNSElem_nsValid c.ns c hvalid seen hv) a ha
      · simp [setPrivateLoop, hempty, hvalid] at ha
        simp [ha, PrivAction.nsOk]

/-- Auxiliary for C10: every storage operation emitted by `getPrivate` is
under a valid (non-reserved) namespace. -/
theorem getPrivate_nsOk (fetchRes : Except Unit (Option (List Elem))) (userJID : JID)
    (iq : IQ) (q : Elem) :
    ∀ a ∈ getPrivate fetchRes userJID iq q, a.nsOk = true := by
  intro a ha
  rcases hq : q.children with _ | ⟨p, _ | ⟨p2, rest⟩⟩
  · simp [getPrivate, hq] at ha
    simp [ha, PrivAction.nsOk]
  · by_cases hlen : 0 < p.children.length
    · simp [getPrivate, hq, hlen] at ha
      simp [ha, PrivAction.nsOk]
    · by_cases hvalid : isValidNamespace p.ns = true
      · simp [getPrivate, hq, hlen, hvalid] at ha
        rcases fetchRes with u | ores
        · simp at ha
          rcases ha with ha | ha
          · simp [ha, PrivAction.nsOk, hvalid]
          · simp [ha, PrivAction.nsOk]
        · rcases ores with _ | els
          · simp at ha
            rcases ha with ha | ha
            · simp [ha, PrivAction.nsOk, hvalid]
            · simp [ha, PrivAction.nsOk]
          · simp at ha
            rcases ha with ha | ha
            · simp [ha, PrivAction.nsOk, hvalid]
            · simp [ha, PrivAction.nsOk]
      · simp [getPrivate, hq, hlen, hvalid] at ha
        simp [ha, PrivAction.nsOk]
  · simp [getPrivate, hq] at ha
    simp [ha, PrivAction.nsOk]

/-- C10: the private XML storage module rejects reserved namespaces
(`jabber:*`, `http://jabber.org/*`, `vcard-temp`): a get for a reserved
namespace draws exactly one `not-acceptable` error with no storage
access; a set containing any reserved-namespace element never touches
storage, and (when no payload namespace is empty) draws exactly one
`not-acceptable` error; and every storage fetch or store either module
ever performs is under a non-reserved namespace. -/
theorem c10_private_reserved_namespaces :
    ∀ (fetchRes : Except Unit (Option (List Elem))) (insertOk : String → Bool)
      (userJID : JID) (iq : IQ) (q : Elem) (p : Elem),
      (q.children = [p] → isValidNamespace p.ns = false →
        getPrivate fetchRes userJID iq q = [.route iq.notAcceptableError]) ∧
      (q.children.any (fun c => !isValidNamespace c.ns) = true →
        ∀ a ∈ setPrivate insertOk userJID iq q, a.isStorageOp = false) ∧
      ((∀ c ∈ q.children, c.ns ≠ "") →
        q.children.any (fun c => !isValidNamespace c.ns) = true →
        setPrivate insertOk userJID iq q = [.route iq.notAcceptableError]) ∧
      (∀ a ∈ getPrivate fetchRes userJID iq q, a.nsOk = true) ∧
      (∀ a ∈ setPrivate insertOk userJID iq q, a.nsOk = true) := by
  intro fetchRes insertOk userJID iq q p
  refine ⟨?_, ?_, ?_, ?_, ?_⟩
  · intro hq hres
    simp [getPrivate, hq, hres]
  · intro h
    exact setPrivateLoop_reserved_no_storage insertOk userJID.node iq q.children [] h
  · intro hne h
    exact setPrivateLoop_reserved_not_acceptable insertOk userJID.node iq q.children []
      hne h
  · exact getPrivate_nsOk fetchRes userJID iq q
  · exact setPrivateLoop_nsOk insertOk userJID.node iq q.children [] (by simp)

/-- C10 witness: a get and a set for the reserved namespace
`jabber:iq:roster` are both rejected with `not-acceptable`. -/
theorem c10_witness :
    getPrivate (.ok none) c10uj c10iq c10q = [.route c10iq.notAcceptableError] ∧
    setPrivate (fun _ => true) c10uj c10iq c10q = [.route c10iq.notAcceptableError] := by
  have h := c10_private_reserved_namespaces (.ok none) (fun _ => true) c10uj c10iq c10q
    c10payload
  refine ⟨h.1 rfl (by decide), h.2.2.1 ?_ (by decide)⟩
  intro c hc
  simp [c10q, Elem.children] at hc
  subst hc
  decide
